import Mathlib

/-!
# Verification of the Roadman language core

A shallow embedding of the Roadman interpreter pipeline found in this
repository: the lexer (src/lexer.py), the recursive-descent parser
(src/parser.py), the AST (src/ast.py), the tree-walking interpreter with
environments and closures (src/interpreter.py), and the JavaScript
transpiler (src/transpiler.py).

Modelling conventions:
* Python floats are modelled as exact rationals (`PyNum`, kept normalized).
  Every program examined here stays inside decimal fractions, where IEEE
  doubles and exact rationals agree, including Python's `str` rendering.
* Python exceptions are modelled by an explicit outcome type: `RuntimeError`
  (raised and caught by the interpreter's error model), the interpreter's
  `Return` control-flow exception, and host-level exceptions that are not
  `RuntimeError` subclasses (`TypeError`, `ZeroDivisionError`, and the
  generic `Exception` raised by `NodeVisitor.generic_visit`).
* Mutable `Environment` objects are modelled as frames in a heap (a list),
  referenced by index; a closure stores the index of the environment it
  captured, exactly as the Python objects share references.
* Unbounded recursion and loops are made total with a fuel parameter; fuel
  exhaustion is a distinguished `timeout` outcome that never occurs in the
  concrete runs below.
* Source text is ASCII in all programs considered; `Char.isDigit`,
  `Char.isAlpha`, `Char.isAlphanum` model Python's `str.isdigit` /
  `isalpha` / `isalnum` on that fragment.
-/

namespace Roadman

/-! ## Exact rational numbers standing in for Python floats -/

/-- Fuel-bounded Euclid; `gcdAux fuel a b` computes `Nat.gcd a b` whenever
`fuel > a` (the first component strictly decreases each step). Written with
explicit fuel so that the kernel can evaluate it. -/
def gcdAux : Nat → Nat → Nat → Nat
  | 0, a, _ => a
  | f + 1, a, b => if a = 0 then b else gcdAux f (b % a) a

/-- A Python float value, modelled as an exact rational in lowest terms with
a nonnegative denominator. All constructors below normalize. -/
structure PyNum where
  num : Int
  den : Nat
deriving DecidableEq, Repr

/-- Normalized rational `n / d` (sign carried by the numerator). `d = 0`
never arises: every division is zero-checked by the interpreter first. -/
def pyNum (n : Int) (d : Int) : PyNum :=
  if d = 0 then ⟨0, 0⟩
  else
    let n' : Int := if d < 0 then -n else n
    let dn : Nat := d.natAbs
    let g : Nat := gcdAux (n'.natAbs + dn + 1) n'.natAbs dn
    ⟨n' / (g : Int), dn / g⟩

def PyNum.add (a b : PyNum) : PyNum :=
  pyNum (a.num * (b.den : Int) + b.num * (a.den : Int)) ((a.den : Int) * (b.den : Int))

def PyNum.sub (a b : PyNum) : PyNum :=
  pyNum (a.num * (b.den : Int) - b.num * (a.den : Int)) ((a.den : Int) * (b.den : Int))

def PyNum.mul (a b : PyNum) : PyNum :=
  pyNum (a.num * b.num) ((a.den : Int) * (b.den : Int))

/-- True division; callers check for a zero divisor first, as the Python
code does. -/
def PyNum.div (a b : PyNum) : PyNum :=
  pyNum (a.num * (b.den : Int)) ((a.den : Int) * b.num)

def PyNum.neg (a : PyNum) : PyNum := ⟨-a.num, a.den⟩

/-- Python's `%` on floats: `a - b * floor(a / b)` (result signed like the
divisor). Callers check `b ≠ 0` (Python raises `ZeroDivisionError` there). -/
def PyNum.pymod (a b : PyNum) : PyNum :=
  let fl : Int := Int.fdiv (a.num * (b.den : Int)) ((a.den : Int) * b.num)
  a.sub (b.mul ⟨fl, 1⟩)

/-- `a < b` by cross multiplication (denominators are nonnegative). -/
def PyNum.blt (a b : PyNum) : Bool := decide (a.num * (b.den : Int) < b.num * (a.den : Int))

def PyNum.ble (a b : PyNum) : Bool := decide (a.num * (b.den : Int) ≤ b.num * (a.den : Int))

/-- Value equality by cross multiplication (robust even if un-normalized). -/
def PyNum.beq (a b : PyNum) : Bool := decide (a.num * (b.den : Int) = b.num * (a.den : Int))

/-- Parse a lexer `DIGIT` token text (`digits` optionally `.` `digits`),
Python's `float(value)` on the token values the lexer can produce. -/
def digitsToNat (cs : List Char) : Nat :=
  cs.foldl (fun acc c => acc * 10 + (c.toNat - 48)) 0

def parseFloat (s : String) : PyNum :=
  let cs := s.data
  let intPart := cs.takeWhile (fun c => c ≠ '.')
  let fracPart := (cs.dropWhile (fun c => c ≠ '.')).drop 1
  pyNum ((digitsToNat intPart * 10 ^ fracPart.length + digitsToNat fracPart : Nat) : Int)
    ((10 ^ fracPart.length : Nat) : Int)

/-- Python's `str` of a nonnegative decimal fraction `n / d` in lowest
terms: an explicit fractional part always appears (`120` prints `120.0`).
Denominators that are not decimal fractions cannot arise from the decimal
programs considered here; they fall back to a fraction spelling. -/
def pyStrPos (n : Nat) (d : Nat) : String :=
  if d = 1 then Nat.repr n ++ ".0"
  else
    match (List.range 64).find? (fun k => 10 ^ (k + 1) % d == 0) with
    | some k =>
        let k := k + 1
        let m := n * (10 ^ k / d)
        let cs := (Nat.repr m).data
        if cs.length ≤ k then
          "0." ++ String.mk (List.replicate (k - cs.length) '0') ++ String.mk cs
        else
          String.mk (cs.take (cs.length - k)) ++ "." ++ String.mk (cs.drop (cs.length - k))
    | Option.none => Nat.repr n ++ "/" ++ Nat.repr d

/-- Python's `str` of a float (on the exact-decimal fragment). -/
def pyStrNum (q : PyNum) : String :=
  if q.num < 0 then "-" ++ pyStrPos (-q.num).toNat q.den else pyStrPos q.num.toNat q.den

/-! ## Tokens (src/lexer.py `Token`) -/

/-- `Token(type, value, line, col)`, an immutable NamedTuple. -/
structure Token where
  type : String
  value : String
  line : Nat
  col : Nat
deriving DecidableEq, Repr

/-! ## AST (src/ast.py) -/

/-- The Python value stored in a `Literal` node: the parser puts a float,
a string or a bool there. -/
inductive Lit where
  | num (q : PyNum)
  | str (s : String)
  | bool (b : Bool)
deriving DecidableEq, Repr

/-- Expression nodes, with the constructor names of the Python dataclasses. -/
inductive Expr where
  | Literal (token : Token) (value : Lit)
  | Variable (token : Token)
  | UnaryOp (operator : Token) (right : Expr)
  | BinaryOp (left : Expr) (operator : Token) (right : Expr)
  | Grouping (expression : Expr)
  | Assignment (name : Token) (value : Expr)
  | FunctionCall (callee : Expr) (paren : Token) (arguments : List Expr)
  | ListLiteral (elements : List Expr)
deriving Repr

/-- Statement nodes. `FunctionDeclaration.body` and `Block` carry the block's
statement list (the Python `Block` dataclass wraps exactly that list). -/
inductive Stmt where
  | ExpressionStatement (expression : Expr)
  | Block (statements : List Stmt)
  | VarDeclaration (name : Token) (initializer : Option Expr) (constant : Bool)
  | IfStatement (condition : Expr) (thenBranch : Stmt) (elseBranch : Option Stmt)
  | WhileLoop (condition : Expr) (body : Stmt)
  | BreakStatement (keyword : Token)
  | FunctionDeclaration (name : Token) (params : List Token) (body : List Stmt)
  | ReturnStatement (keyword : Token) (value : Option Expr)
deriving Repr

structure Program where
  statements : List Stmt
deriving Repr

/-! ## Runtime values (src/interpreter.py) -/

/-- A runtime value: Python `None`, float, str, bool, list, a
`RoadmanFunction` closure (declaration data plus the heap index of the
captured environment), or the native `Say` callable. -/
inductive Value where
  | none
  | num (q : PyNum)
  | str (s : String)
  | bool (b : Bool)
  | list (elems : List Value)
  | fn (name : Token) (params : List Token) (body : List Stmt) (closure : Nat)
  | say
deriving Repr

instance : Inhabited Value := ⟨Value.none⟩

/-- The Python type name, for `TypeError` messages. -/
def pyTypeName : Value → String
  | .none => "NoneType"
  | .num _ => "float"
  | .str _ => "str"
  | .bool _ => "bool"
  | .list _ => "list"
  | .fn _ _ _ _ => "RoadmanFunction"
  | .say => "Say"

/- Python `repr` on the runtime values (used by `print` inside lists):
floats via `str`, strings single-quoted, bools capitalized, `None`, lists
recursively. A `RoadmanFunction` defines `__str__` as shown; its exact
`repr` (a default object repr with an address) is unobservable here. -/
mutual
def pyRepr : Value → String
  | .none => "None"
  | .num q => pyStrNum q
  | .str s => "'" ++ s ++ "'"
  | .bool b => if b then "True" else "False"
  | .list vs => "[" ++ String.intercalate ", " (pyReprList vs) ++ "]"
  | .fn name _ _ _ => "<fn " ++ name.value ++ ">"
  | .say => "<Say instance>"
def pyReprList : List Value → List String
  | [] => []
  | v :: vs => pyRepr v :: pyReprList vs
end

/-- Python `str`, what `print(value)` writes: strings unquoted at top level,
everything else as its repr. -/
def pyStr : Value → String
  | .str s => s
  | v => pyRepr v

/-! ## Environments (src/interpreter.py `Environment`)

An `Environment` instance becomes a `Frame` in a heap, addressed by index;
`enclosing` is the index of the enclosing environment object, if any. The
`values` dict is an association list with dict update semantics. -/

structure Frame where
  values : List (String × Value)
  enclosing : Option Nat
deriving Repr

instance : Inhabited Frame := ⟨⟨[], Option.none⟩⟩

def alistGet : List (String × Value) → String → Option Value
  | [], _ => Option.none
  | (k, v) :: rest, key => if k = key then some v else alistGet rest key

/-- Python dict assignment: update in place if present, else append. -/
def alistSet : List (String × Value) → String → Value → List (String × Value)
  | [], key, v => [(key, v)]
  | (k, w) :: rest, key, v =>
      if k = key then (k, v) :: rest else (k, w) :: alistSet rest key v

def getFrame (h : List Frame) (i : Nat) : Frame := h.getD i default

def setFrameValues (h : List Frame) (i : Nat) (vals : List (String × Value)) : List Frame :=
  h.set i ⟨vals, (getFrame h i).enclosing⟩

/-- `Environment.get`: look in this scope, then the enclosing chain; raise
`RuntimeError` if undefined everywhere. Enclosing chains always point to
strictly earlier frames, so `h.length + 1` fuel is always enough. -/
def envGet : Nat → List Frame → Nat → String → Except String Value
  | 0, _, _, name => .error ("Undefined variable '" ++ name ++ "'.")
  | f + 1, h, i, name =>
      match alistGet (getFrame h i).values name with
      | some v => .ok v
      | Option.none =>
          match (getFrame h i).enclosing with
          | some j => envGet f h j name
          | Option.none => .error ("Undefined variable '" ++ name ++ "'.")

/-- `Environment.assign`: assign in the innermost scope of the chain that
defines the name; raise `RuntimeError` if undefined everywhere. -/
def envAssign : Nat → List Frame → Nat → String → Value → Except String (List Frame)
  | 0, _, _, name, _ => .error ("Undefined variable '" ++ name ++ "'.")
  | f + 1, h, i, name, v =>
      if (alistGet (getFrame h i).values name).isSome then
        .ok (setFrameValues h i (alistSet (getFrame h i).values name v))
      else
        match (getFrame h i).enclosing with
        | some j => envAssign f h j name v
        | Option.none => .error ("Undefined variable '" ++ name ++ "'.")

/-- The frame of the enclosing chain in which a name resolves, if any
(the scope `Environment.get`/`assign` would act on). -/
def resolveIdx : Nat → List Frame → Nat → String → Option Nat
  | 0, _, _, _ => Option.none
  | f + 1, h, i, name =>
      if (alistGet (getFrame h i).values name).isSome then some i
      else
        match (getFrame h i).enclosing with
        | some j => resolveIdx f h j name
        | Option.none => Option.none

/-! ## Interpreter state and outcomes -/

/-- Interpreter state: the heap of environment frames, the index of
`self.environment` (the currently active environment), and the lines
printed so far by the `say` native. `self.globals` is always frame 0. -/
structure St where
  heap : List Frame
  envIdx : Nat
  output : List String
deriving Repr

/-- Python exceptions in flight: `RuntimeError` (the interpreter's own error
model), the `Return` control-flow exception, and host-level exceptions that
are not `RuntimeError` subclasses (`TypeError`, `ZeroDivisionError`, the
generic `Exception` from `NodeVisitor.generic_visit`). -/
inductive Exc where
  | runtimeError (msg : String)
  | ret (v : Value)
  | hostError (msg : String)
deriving Repr

inductive Res (α : Type) where
  | ok (a : α)
  | exc (e : Exc)
  | timeout
deriving Repr

/-- What one evaluator step is asked to do: evaluate an expression, a list
of expressions (call arguments / list elements), execute a statement or a
statement list, or invoke `RoadmanCallable.call` on a value. -/
inductive EvalIn where
  | expr (e : Expr)
  | exprList (es : List Expr)
  | stmt (s : Stmt)
  | stmtList (ss : List Stmt)
  | callVal (callee : Value) (args : List Value)

inductive EvalOut where
  | val (v : Value)
  | vals (vs : List Value)
  | unit
deriving Repr

/-- `value in current env`: `Environment.define` on `self.environment`. -/
def envDefine (st : St) (name : String) (v : Value) : St :=
  { st with heap :=
      setFrameValues st.heap st.envIdx (alistSet (getFrame st.heap st.envIdx).values name v) }

/-- Interpreter truthiness (`Interpreter._is_truthy`): `None` false, bool
itself, a float false iff zero, a string false iff empty, all else true. -/
def isTruthy : Value → Bool
  | .none => false
  | .bool b => b
  | .num q => decide (q.num ≠ 0)
  | .str s => decide (0 < s.length)
  | _ => true

/- Python `==` on the runtime values (`Interpreter._is_equal` delegates to
it after the `None` cases): numbers by value, bools interchangeable with
numbers (Python bools are ints), strings by value, lists elementwise.
Function objects compare by identity in Python; distinct closure values are
never compared in any program here, so structural comparison stands in. -/
mutual
def pyEq : Value → Value → Bool
  | .num a, .num b => a.beq b
  | .num a, .bool b => a.beq ⟨if b then 1 else 0, 1⟩
  | .bool a, .num b => PyNum.beq ⟨if a then 1 else 0, 1⟩ b
  | .bool a, .bool b => a == b
  | .str a, .str b => a == b
  | .list xs, .list ys => pyEqList xs ys
  | .none, .none => true
  | _, _ => false
def pyEqList : List Value → List Value → Bool
  | [], [] => true
  | x :: xs, y :: ys => pyEq x y && pyEqList xs ys
  | _, _ => false
end

/-- `Interpreter._is_equal`: two `None`s equal, `None` never equal to a
non-`None`, otherwise Python `==`. -/
def isEqual : Value → Value → Bool
  | .none, .none => true
  | .none, _ => false
  | a, b => pyEq a b

inductive CmpOp where
  | lt
  | le
  | gt
  | ge
deriving Repr

def cmpOpSymbol : CmpOp → String
  | .lt => "<"
  | .le => "<="
  | .gt => ">"
  | .ge => ">="

def applyCmpNum (op : CmpOp) (a b : PyNum) : Bool :=
  match op with
  | .lt => a.blt b
  | .le => a.ble b
  | .gt => b.blt a
  | .ge => b.ble a

def applyCmpOrd (op : CmpOp) (o : Ordering) : Bool :=
  match op, o with
  | .lt, .lt => true
  | .le, .lt => true
  | .le, .eq => true
  | .gt, .gt => true
  | .ge, .gt => true
  | .ge, .eq => true
  | _, _ => false

/-- A number-or-bool as a number (Python bools order as 0/1). -/
def toNumQ : Value → Option PyNum
  | .num q => some q
  | .bool b => some ⟨if b then 1 else 0, 1⟩
  | _ => Option.none

def strOrd (a b : String) : Ordering :=
  if a < b then .lt else if a = b then .eq else .gt

/- Python rich comparison for `<`, `<=`, `>`, `>=` on the runtime values:
numbers and bools numerically, strings lexicographically, lists
lexicographically with elementwise comparison (which may itself raise), and
`TypeError` on every other pair — there is no operand-type check in
`visit_BinaryOp` for comparisons. -/
mutual
def pyCompare (op : CmpOp) (a b : Value) : Except String Bool :=
  match toNumQ a, toNumQ b with
  | some x, some y => .ok (applyCmpNum op x y)
  | _, _ =>
      match a, b with
      | .str x, .str y => .ok (applyCmpOrd op (strOrd x y))
      | .list xs, .list ys =>
          match pyCompareList op xs ys with
          | .ok o => .ok (applyCmpOrd op o)
          | .error e => .error e
      | _, _ =>
          .error ("'" ++ cmpOpSymbol op ++ "' not supported between instances of '"
            ++ pyTypeName a ++ "' and '" ++ pyTypeName b ++ "'")
def pyCompareList (op : CmpOp) : List Value → List Value → Except String Ordering
  | [], [] => .ok .eq
  | [], _ :: _ => .ok .lt
  | _ :: _, [] => .ok .gt
  | x :: xs, y :: ys =>
      if pyEq x y then pyCompareList op xs ys
      else
        match pyCompare .lt x y with
        | .ok true => .ok .lt
        | .ok false => .ok .gt
        | .error e => .error e
end

def isCallable : Value → Bool
  | .fn _ _ _ _ => true
  | .say => true
  | _ => false

/-- `RoadmanCallable.arity`. -/
def arity : Value → Nat
  | .fn _ params _ _ => params.length
  | .say => 1
  | _ => 0

/-- `RoadmanFunction.call`'s parameter binding: define each parameter to the
matching argument in the fresh environment's dict. -/
def bindParams (params : List Token) (args : List Value) : List (String × Value) :=
  (params.zip args).foldl (fun acc pa => alistSet acc pa.1.value pa.2) []

/-- `Interpreter.visit_BinaryOp` after both operands are evaluated (a pure
computation: it never touches the environment). -/
def evalBinary (op : Token) (l r : Value) : Res EvalOut :=
  if op.type == "MINUS" then
    match l, r with
    | .num a, .num b => .ok (.val (.num (a.sub b)))
    | _, _ => .exc (.runtimeError (op.value ++ ": Operands must be numbers."))
  else if op.type == "PLUS" then
    match l, r with
    | .num a, .num b => .ok (.val (.num (a.add b)))
    | .str a, .str b => .ok (.val (.str (a ++ b)))
    | _, _ =>
        .exc (.runtimeError (op.value ++ ": Operands must be two numbers or two strings."))
  else if op.type == "SLASH" then
    match l, r with
    | .num a, .num b =>
        if b.num == 0 then .exc (.runtimeError "Division by zero.")
        else .ok (.val (.num (a.div b)))
    | _, _ => .exc (.runtimeError (op.value ++ ": Operands must be numbers."))
  else if op.type == "STAR" then
    match l, r with
    | .num a, .num b => .ok (.val (.num (a.mul b)))
    | _, _ => .exc (.runtimeError (op.value ++ ": Operands must be numbers."))
  else if op.type == "PERCENT" then
    match l, r with
    | .num a, .num b =>
        if b.num == 0 then .exc (.hostError "float modulo")
        else .ok (.val (.num (a.pymod b)))
    | _, _ => .exc (.runtimeError (op.value ++ ": Operands must be numbers."))
  else if op.type == "GREATER" then
    match pyCompare .gt l r with
    | .ok b => .ok (.val (.bool b))
    | .error m => .exc (.hostError m)
  else if op.type == "GREATER_EQ" then
    match pyCompare .ge l r with
    | .ok b => .ok (.val (.bool b))
    | .error m => .exc (.hostError m)
  else if op.type == "LESS" then
    match pyCompare .lt l r with
    | .ok b => .ok (.val (.bool b))
    | .error m => .exc (.hostError m)
  else if op.type == "LESS_EQ" then
    match pyCompare .le l r with
    | .ok b => .ok (.val (.bool b))
    | .error m => .exc (.hostError m)
  else if op.type == "BANG_EQ" then .ok (.val (.bool (!isEqual l r)))
  else if op.type == "EQ_EQ" then .ok (.val (.bool (isEqual l r)))
  else .ok (.val .none)

/-- `Interpreter.visit_UnaryOp` after the operand is evaluated (pure). -/
def evalUnary (opTok : Token) (rv : Value) : Res EvalOut :=
  if opTok.type == "MINUS" then
    match rv with
    | .num q => .ok (.val (.num q.neg))
    | _ => .exc (.runtimeError (opTok.value ++ ": Operand must be a number."))
  else if opTok.type == "BANG" then .ok (.val (.bool (!isTruthy rv)))
  else .ok (.val .none)

/-- Allocate a fresh `Environment(enclosing)` and make it current: the
shared prefix of `Environment.__init__` plus `_execute_block`'s switch. -/
def pushFrame (st : St) (fr : Frame) : St :=
  { heap := st.heap ++ [fr], envIdx := st.heap.length, output := st.output }

/-- `_execute_block`'s `finally`: restore `self.environment`. -/
def restoreEnv (st : St) (idx : Nat) : St :=
  { st with envIdx := idx }

def litValue : Lit → Value
  | .num q => .num q
  | .str s => .str s
  | .bool b => .bool b

/-- Sequence a recursive result expected to be a single value. The shape
mismatches are unreachable (every `.expr` input produces `.val`). -/
def bindVal (r : Res EvalOut × St) (k : Value → St → Res EvalOut × St) : Res EvalOut × St :=
  match r with
  | (.ok (.val v), st) => k v st
  | (.ok _, st) => (.exc (.hostError "internal shape error"), st)
  | (.exc e, st) => (.exc e, st)
  | (.timeout, st) => (.timeout, st)

def bindVals (r : Res EvalOut × St) (k : List Value → St → Res EvalOut × St) : Res EvalOut × St :=
  match r with
  | (.ok (.vals vs), st) => k vs st
  | (.ok _, st) => (.exc (.hostError "internal shape error"), st)
  | (.exc e, st) => (.exc e, st)
  | (.timeout, st) => (.timeout, st)

/-- Sequence a recursive result whose value is discarded (statements). -/
def bindUnit (r : Res EvalOut × St) (k : St → Res EvalOut × St) : Res EvalOut × St :=
  match r with
  | (.ok _, st) => k st
  | (.exc e, st) => (.exc e, st)
  | (.timeout, st) => (.timeout, st)

/-- The tree-walking evaluator: one fuel-indexed function covering every
`visit_*` method of `Interpreter`, `RoadmanFunction.call` and `Say.call`.
Fuel only ever runs out on programs that diverge in Python. -/
def run : Nat → St → EvalIn → Res EvalOut × St
  | 0, st, _ => (.timeout, st)
  | f + 1, st, inp =>
    match inp with
    -- visit_Literal
    | .expr (.Literal _ v) => (.ok (.val (litValue v)), st)
    -- visit_Variable: self.environment.get(expr.token)
    | .expr (.Variable tok) =>
        match envGet (st.heap.length + 1) st.heap st.envIdx tok.value with
        | .ok v => (.ok (.val v), st)
        | .error msg => (.exc (.runtimeError msg), st)
    -- visit_Grouping
    | .expr (.Grouping e) => run f st (.expr e)
    -- visit_UnaryOp
    | .expr (.UnaryOp opTok right) =>
        bindVal (run f st (.expr right)) fun rv st1 => (evalUnary opTok rv, st1)
    -- visit_BinaryOp
    | .expr (.BinaryOp l opTok r) =>
        bindVal (run f st (.expr l)) fun lv st1 =>
          bindVal (run f st1 (.expr r)) fun rv st2 =>
            (evalBinary opTok lv rv, st2)
    -- visit_Assignment: evaluate, assign into the chain, return the value
    | .expr (.Assignment name value) =>
        bindVal (run f st (.expr value)) fun v st1 =>
          match envAssign (st1.heap.length + 1) st1.heap st1.envIdx name.value v with
          | .ok h => (.ok (.val v), { st1 with heap := h })
          | .error msg => (.exc (.runtimeError msg), st1)
    -- visit_FunctionCall: callee, then arguments, then checks, then call
    | .expr (.FunctionCall callee _ args) =>
        bindVal (run f st (.expr callee)) fun cv st1 =>
          bindVals (run f st1 (.exprList args)) fun argv st2 =>
            if !isCallable cv then
              (.exc (.runtimeError "Can only call functions and classes."), st2)
            else if argv.length != arity cv then
              (.exc (.runtimeError ("Expected " ++ toString (arity cv)
                ++ " arguments but got " ++ toString argv.length ++ ".")), st2)
            else run f st2 (.callVal cv argv)
    -- visit_ListLiteral
    | .expr (.ListLiteral elems) =>
        bindVals (run f st (.exprList elems)) fun vs st1 => (.ok (.val (.list vs)), st1)
    | .exprList [] => (.ok (.vals []), st)
    | .exprList (e :: es) =>
        bindVal (run f st (.expr e)) fun v st1 =>
          bindVals (run f st1 (.exprList es)) fun vs st2 => (.ok (.vals (v :: vs)), st2)
    -- RoadmanFunction.call: fresh Environment(self.closure) with the
    -- parameters bound, execute the body there, catch Return; the caller's
    -- environment is restored by _execute_block's finally on every path.
    | .callVal (.fn _ params body closure) args =>
        (match run f (pushFrame st ⟨bindParams params args, some closure⟩) (.stmtList body) with
         | (.ok _, st2) => (.ok (.val .none), restoreEnv st2 st.envIdx)
         | (.exc (.ret v), st2) => (.ok (.val v), restoreEnv st2 st.envIdx)
         | (.exc e, st2) => (.exc e, restoreEnv st2 st.envIdx)
         | (.timeout, st2) => (.timeout, restoreEnv st2 st.envIdx))
    -- Say.call: print(arguments[0]); implicitly returns None
    | .callVal .say args =>
        (.ok (.val .none), { st with output := st.output ++ [pyStr (args.headD .none)] })
    -- RoadmanCallable.call on anything else is unreachable (isCallable
    -- guards every call site); Python's base class would raise.
    | .callVal _ _ => (.exc (.hostError "NotImplementedError"), st)
    -- visit_ExpressionStatement
    | .stmt (.ExpressionStatement e) =>
        bindVal (run f st (.expr e)) fun _ st1 => (.ok .unit, st1)
    -- visit_VarDeclaration: the is-constant flag is never consulted
    | .stmt (.VarDeclaration name init _) =>
        (match init with
         | Option.none => (.ok .unit, envDefine st name.value .none)
         | some e =>
            bindVal (run f st (.expr e)) fun v st1 => (.ok .unit, envDefine st1 name.value v))
    -- visit_Block: _execute_block(stmts, Environment(self.environment))
    | .stmt (.Block ss) =>
        (match run f (pushFrame st ⟨[], some st.envIdx⟩) (.stmtList ss) with
         | (.ok _, st2) => (.ok .unit, restoreEnv st2 st.envIdx)
         | (.exc e, st2) => (.exc e, restoreEnv st2 st.envIdx)
         | (.timeout, st2) => (.timeout, restoreEnv st2 st.envIdx))
    -- visit_FunctionDeclaration: RoadmanFunction(stmt, self.environment)
    | .stmt (.FunctionDeclaration name params body) =>
        (.ok .unit, envDefine st name.value (.fn name params body st.envIdx))
    -- visit_ReturnStatement: raise Return(value)
    | .stmt (.ReturnStatement _ value) =>
        (match value with
         | Option.none => (.exc (.ret .none), st)
         | some e => bindVal (run f st (.expr e)) fun v st1 => (.exc (.ret v), st1))
    -- There is no visit_BreakStatement: NodeVisitor.generic_visit raises a
    -- plain Exception, which is not a RuntimeError.
    | .stmt (.BreakStatement _) =>
        (.exc (.hostError "No visit_BreakStatement method defined"), st)
    -- visit_IfStatement
    | .stmt (.IfStatement cond thenB elseB) =>
        bindVal (run f st (.expr cond)) fun c st1 =>
          if isTruthy c then run f st1 (.stmt thenB)
          else
            match elseB with
            | some e => run f st1 (.stmt e)
            | Option.none => (.ok .unit, st1)
    -- visit_WhileLoop
    | .stmt (.WhileLoop cond body) =>
        bindVal (run f st (.expr cond)) fun c st1 =>
          if isTruthy c then
            bindUnit (run f st1 (.stmt body)) fun st2 =>
              run f st2 (.stmt (.WhileLoop cond body))
          else (.ok .unit, st1)
    | .stmtList [] => (.ok .unit, st)
    | .stmtList (s :: ss) =>
        bindUnit (run f st (.stmt s)) fun st1 => run f st1 (.stmtList ss)

/-- Typed wrapper: expression evaluation (`Interpreter._evaluate`). -/
def evalExpr (f : Nat) (st : St) (e : Expr) : Res Value × St :=
  match run f st (.expr e) with
  | (.ok (.val v), st1) => (.ok v, st1)
  | (.ok _, st1) => (.exc (.hostError "internal shape error"), st1)
  | (.exc ex, st1) => (.exc ex, st1)
  | (.timeout, st1) => (.timeout, st1)

/-- Typed wrapper: statement execution (`Interpreter._execute`). -/
def execStmt (f : Nat) (st : St) (s : Stmt) : Res Unit × St :=
  match run f st (.stmt s) with
  | (.ok _, st1) => (.ok (), st1)
  | (.exc ex, st1) => (.exc ex, st1)
  | (.timeout, st1) => (.timeout, st1)

/-- Typed wrapper: `RoadmanCallable.call`. -/
def callFn (f : Nat) (st : St) (v : Value) (args : List Value) : Res Value × St :=
  match run f st (.callVal v args) with
  | (.ok (.val w), st1) => (.ok w, st1)
  | (.ok _, st1) => (.exc (.hostError "internal shape error"), st1)
  | (.exc ex, st1) => (.exc ex, st1)
  | (.timeout, st1) => (.timeout, st1)

/-- `Interpreter.__init__`: a fresh global environment holding the native
`say`, which is also the current environment. -/
def initState : St :=
  { heap := [⟨[("say", Value.say)], Option.none⟩], envIdx := 0, output := [] }

/-- `Interpreter.interpret`: execute the program's statements in order; a
`RuntimeError` is caught here and printed, and execution of that program
halts; every other exception propagates to the host caller. -/
def interpret (f : Nat) (prog : Program) (st : St) : Res Unit × St :=
  match run f st (.stmtList prog.statements) with
  | (.ok _, st1) => (.ok (), st1)
  | (.exc (.runtimeError msg), st1) => (.ok (), { st1 with output := st1.output ++ [msg] })
  | (.exc e, st1) => (.exc e, st1)
  | (.timeout, st1) => (.timeout, st1)

/-! ## Lexer (src/lexer.py)

The scanner state carries the source as characters, the cursor, line/column
tracking, the slice start for the token in progress, the tokens emitted so
far, and the diagnostics the Python code prints directly (unscannable
character, unterminated string). Every inner loop advances the cursor each
iteration, so `source.length + 1` fuel is always sufficient. -/

structure LexSt where
  source : List Char
  current : Nat
  line : Nat
  col : Nat
  start : Nat
  startCol : Nat
  tokens : List Token
  diags : List String
deriving Repr

def lexIsAtEnd (st : LexSt) : Bool := st.source.length ≤ st.current

/-- `_peek`: the current character, or NUL at end. -/
def lexPeek (st : LexSt) : Char := st.source.getD st.current '\x00'

def lexPeekNext (st : LexSt) : Char := st.source.getD (st.current + 1) '\x00'

/-- `_advance`: consume one character, tracking the column. -/
def lexAdvance (st : LexSt) : Char × LexSt :=
  (st.source.getD st.current '\x00', { st with current := st.current + 1, col := st.col + 1 })

/-- `_add_token`: the token text is the `source[start:current]` slice; an
explicit value overrides it; position is the token's starting column. -/
def lexAddToken (st : LexSt) (type : String) (value : Option String) : LexSt :=
  let text := String.mk ((st.source.drop st.start).take (st.current - st.start))
  { st with tokens := st.tokens ++ [⟨type, value.getD text, st.line, st.startCol⟩] }

/-- The `//` comment loop: skip to end of line. -/
def skipLineComment : Nat → LexSt → LexSt
  | 0, st => st
  | f + 1, st =>
      if (lexPeek st != '\n') && !lexIsAtEnd st then skipLineComment f (lexAdvance st).2
      else st

/-- The `/* ... */` body loop, tracking line/column across newlines exactly
as the Python does (column reset, then bumped by the advance). -/
def skipBlockComment : Nat → LexSt → LexSt
  | 0, st => st
  | f + 1, st =>
      if !(lexPeek st == '*' && lexPeekNext st == '/') && !lexIsAtEnd st then
        let st := if lexPeek st == '\n' then { st with line := st.line + 1, col := 1 } else st
        skipBlockComment f (lexAdvance st).2
      else st

/-- The `_string` scan loop up to the closing quote or end of input. -/
def scanStringBody : Nat → LexSt → LexSt
  | 0, st => st
  | f + 1, st =>
      if (lexPeek st != '"') && !lexIsAtEnd st then
        let st := if lexPeek st == '\n' then { st with line := st.line + 1 } else st
        scanStringBody f (lexAdvance st).2
      else st

/-- `_string`: on an unterminated string a diagnostic is printed and no
token is produced; otherwise the quotes are trimmed from the value. -/
def finishString (st : LexSt) : LexSt :=
  let st := scanStringBody (st.source.length + 1) st
  if lexIsAtEnd st then
    { st with diags := st.diags
        ++ ["[" ++ toString st.line ++ ":" ++ toString st.col ++ "] Unterminated string."] }
  else
    let st := (lexAdvance st).2
    let value := String.mk ((st.source.drop (st.start + 1)).take (st.current - 1 - (st.start + 1)))
    lexAddToken st "WORD" (some value)

def scanDigits : Nat → LexSt → LexSt
  | 0, st => st
  | f + 1, st => if (lexPeek st).isDigit then scanDigits f (lexAdvance st).2 else st

/-- `_number`: digits, then optionally `.` followed by at least one digit. -/
def finishNumber (st : LexSt) : LexSt :=
  let st := scanDigits (st.source.length + 1) st
  let st :=
    if lexPeek st == '.' && (lexPeekNext st).isDigit then
      scanDigits (st.source.length + 1) (lexAdvance st).2
    else st
  lexAddToken st "DIGIT" (some (String.mk ((st.source.drop st.start).take (st.current - st.start))))

def scanIdentChars : Nat → LexSt → LexSt
  | 0, st => st
  | f + 1, st =>
      if (lexPeek st).isAlphanum || lexPeek st == '_' then scanIdentChars f (lexAdvance st).2
      else st

/-- The keyword table of `Lexer._load_keywords`. -/
def keywordType (text : String) : String :=
  match text with
  | "innit" => "INNIT"
  | "elseway" => "ELSEWAY"
  | "loopz" => "LOOPZ"
  | "stopit" => "STOPIT"
  | "switchup" => "SWITCHUP"
  | "casez" => "CASEZ"
  | "defend" => "DEFEND"
  | "conste" => "CONSTE"
  | "gimme" => "GIMME"
  | "fam" => "FAM"
  | "returnz" => "RETURNZ"
  | "true" => "TRUE"
  | "false" => "FALSE"
  | "digit" => "TYPE_DIGIT"
  | "word" => "TYPE_WORD"
  | "boola" => "TYPE_BOOLA"
  | "listz" => "TYPE_LISTZ"
  | "mapz" => "TYPE_MAPZ"
  | _ => "IDENTIFIER"

def finishIdentifier (st : LexSt) : LexSt :=
  let st := scanIdentChars (st.source.length + 1) st
  let text := String.mk ((st.source.drop st.start).take (st.current - st.start))
  lexAddToken st (keywordType text) Option.none

/-- `_handle_operator_or_punct`. Note the two-character branches call
`_add_token` *before* consuming the second character, so those tokens carry
only their first character as text; and a lone `&` or `|` reaches the final
diagnostic branch and emits no token at all. -/
def handleOpPunct (c : Char) (st : LexSt) : LexSt :=
  if c == '=' && lexPeek st == '=' then (lexAdvance (lexAddToken st "EQ_EQ" Option.none)).2
  else if c == '!' && lexPeek st == '=' then (lexAdvance (lexAddToken st "BANG_EQ" Option.none)).2
  else if c == '<' && lexPeek st == '=' then (lexAdvance (lexAddToken st "LESS_EQ" Option.none)).2
  else if c == '>' && lexPeek st == '=' then
    (lexAdvance (lexAddToken st "GREATER_EQ" Option.none)).2
  else if c == '&' && lexPeek st == '&' then (lexAdvance (lexAddToken st "AND" Option.none)).2
  else if c == '|' && lexPeek st == '|' then (lexAdvance (lexAddToken st "OR" Option.none)).2
  else if c == '(' then lexAddToken st "LPAREN" Option.none
  else if c == ')' then lexAddToken st "RPAREN" Option.none
  else if c == '{' then lexAddToken st "LBRACE" Option.none
  else if c == '}' then lexAddToken st "RBRACE" Option.none
  else if c == '[' then lexAddToken st "LBRACKET" Option.none
  else if c == ']' then lexAddToken st "RBRACKET" Option.none
  else if c == ',' then lexAddToken st "COMMA" Option.none
  else if c == '.' then lexAddToken st "DOT" Option.none
  else if c == '-' then lexAddToken st "MINUS" Option.none
  else if c == '+' then lexAddToken st "PLUS" Option.none
  else if c == ';' then lexAddToken st "SEMICOLON" Option.none
  else if c == '*' then lexAddToken st "STAR" Option.none
  else if c == '%' then lexAddToken st "PERCENT" Option.none
  else if c == '!' then lexAddToken st "BANG" Option.none
  else if c == '=' then lexAddToken st "EQ" Option.none
  else if c == '<' then lexAddToken st "LESS" Option.none
  else if c == '>' then lexAddToken st "GREATER" Option.none
  else if c == ':' then lexAddToken st "COLON" Option.none
  else
    { st with diags := st.diags ++ ["[" ++ toString st.line ++ ":" ++ toString st.col
        ++ "] Unexpected character: " ++ String.mk [c]] }

/-- `_scan_token`. -/
def scanOneToken (st : LexSt) : LexSt :=
  let st := { st with start := st.current, startCol := st.col }
  let (c, st) := lexAdvance st
  if c == ' ' || c == '\r' || c == '\t' then st
  else if c == '\n' then { st with line := st.line + 1, col := 1 }
  else if c == '/' then
    if lexPeek st == '/' then skipLineComment (st.source.length + 1) st
    else if lexPeek st == '*' then
      let st := (lexAdvance st).2
      let st := skipBlockComment (st.source.length + 1) st
      if !lexIsAtEnd st then (lexAdvance (lexAdvance st).2).2 else st
    else lexAddToken st "SLASH" Option.none
  else if c == '"' then finishString st
  else if c.isDigit then finishNumber st
  else if c.isAlpha || c == '_' then finishIdentifier st
  else handleOpPunct c st

def lexLoop : Nat → LexSt → LexSt
  | 0, st => st
  | f + 1, st => if lexIsAtEnd st then st else lexLoop f (scanOneToken st)

def lexRun (source : String) : LexSt :=
  lexLoop (source.data.length + 1) ⟨source.data, 0, 1, 1, 0, 1, [], []⟩

/-- `Lexer.tokenize`: scan the whole source and append the EOF token. -/
def tokenize (source : String) : List Token :=
  let st := lexRun source
  st.tokens ++ [⟨"EOF", "", st.line, st.col⟩]

/-- The diagnostics the Python lexer prints while scanning. -/
def lexDiags (source : String) : List String := (lexRun source).diags

/-! ## Parser (src/parser.py)

One fuel-indexed function `parseRun` covers every `Parser._xxx` production;
the `...Loop` inputs are the `while` loops inside those methods. A
`ParseError` aborts parsing of the unit, carrying the formatted message. -/

structure PSt where
  tokens : List Token
  current : Nat
deriving Repr

def dummyToken : Token := ⟨"EOF", "", 0, 0⟩

def pPeek (st : PSt) : Token := st.tokens.getD st.current dummyToken

/- `self.tokens[self.current - 1]`; only ever called after an advance, so
the truncated subtraction at `current = 0` is never exercised. -/
def pPrevious (st : PSt) : Token := st.tokens.getD (st.current - 1) dummyToken

def pIsAtEnd (st : PSt) : Bool := (pPeek st).type == "EOF"

def pAdvanceSt (st : PSt) : PSt :=
  if pIsAtEnd st then st else { st with current := st.current + 1 }

def pCheck (st : PSt) (t : String) : Bool :=
  if pIsAtEnd st then false else (pPeek st).type == t

/-- `Parser._match` with a single candidate. -/
def pMatch1 (st : PSt) (t : String) : Bool × PSt :=
  if pCheck st t then (true, pAdvanceSt st) else (false, st)

/-- `Parser._match` over its candidate list. -/
def pMatchAny (st : PSt) : List String → Bool × PSt
  | [] => (false, st)
  | t :: ts => if pCheck st t then (true, pAdvanceSt st) else pMatchAny st ts

/-- `Parser._error`: format (and return — not raise) a ParseError message. -/
def pErrorMsg (tok : Token) (message : String) : String :=
  "[line " ++ toString tok.line ++ ":" ++ toString tok.col ++ "] Error"
    ++ (if tok.type == "EOF" then " at end" else " at '" ++ tok.value ++ "'")
    ++ ": " ++ message

/-- `Parser._consume`: advance past an expected token or raise. -/
def pConsume (st : PSt) (t : String) (message : String) : Except String (Token × PSt) :=
  if pCheck st t then
    let st1 := pAdvanceSt st
    .ok (pPrevious st1, st1)
  else .error (pErrorMsg (pPeek st) message)

inductive PIn where
  | programLoop (acc : List Stmt)
  | declaration
  | varDeclaration (constant : Bool)
  | functionDeclaration
  | paramsLoop (acc : List Token)
  | statement
  | ifStatement
  | whileStatement
  | returnStatement
  | breakStatement
  | blockLoop (acc : List Stmt)
  | expressionStatement
  | expression
  | assignment
  | logicalOr
  | logicalOrLoop (e : Expr)
  | logicalAnd
  | logicalAndLoop (e : Expr)
  | equality
  | equalityLoop (e : Expr)
  | comparison
  | comparisonLoop (e : Expr)
  | term
  | termLoop (e : Expr)
  | factor
  | factorLoop (e : Expr)
  | unary
  | callExpr
  | callLoop (e : Expr)
  | finishCall (callee : Expr)
  | argsLoop (callee : Expr) (acc : List Expr)
  | primary
  | listLiteralIn
  | listLoop (acc : List Expr)

inductive POut where
  | stmt (s : Stmt)
  | stmts (ss : List Stmt)
  | expr (e : Expr)
  | toks (ts : List Token)
deriving Repr

inductive PRes where
  | ok (out : POut) (st : PSt)
  | err (msg : String)
  | timeout
deriving Repr

def pBindExpr (r : PRes) (k : Expr → PSt → PRes) : PRes :=
  match r with
  | .ok (.expr e) st => k e st
  | .ok _ _ => .err "internal shape error"
  | .err m => .err m
  | .timeout => .timeout

def pBindStmt (r : PRes) (k : Stmt → PSt → PRes) : PRes :=
  match r with
  | .ok (.stmt s) st => k s st
  | .ok _ _ => .err "internal shape error"
  | .err m => .err m
  | .timeout => .timeout

def pBindStmts (r : PRes) (k : List Stmt → PSt → PRes) : PRes :=
  match r with
  | .ok (.stmts ss) st => k ss st
  | .ok _ _ => .err "internal shape error"
  | .err m => .err m
  | .timeout => .timeout

def pBindToks (r : PRes) (k : List Token → PSt → PRes) : PRes :=
  match r with
  | .ok (.toks ts) st => k ts st
  | .ok _ _ => .err "internal shape error"
  | .err m => .err m
  | .timeout => .timeout

def parseRun : Nat → PSt → PIn → PRes
  | 0, _, _ => .timeout
  | f + 1, st, inp =>
    match inp with
    -- Parser.parse's driving loop
    | .programLoop acc =>
        if !pIsAtEnd st then
          pBindStmt (parseRun f st .declaration) fun s st1 =>
            parseRun f st1 (.programLoop (acc ++ [s]))
        else .ok (.stmts acc) st
    -- _declaration
    | .declaration =>
        let (m, st1) := pMatch1 st "CONSTE"
        if m then parseRun f st1 (.varDeclaration true) else
        let (m, st1) := pMatch1 st "GIMME"
        if m then parseRun f st1 (.varDeclaration false) else
        let (m, st1) := pMatch1 st "FAM"
        if m then parseRun f st1 .functionDeclaration
        else parseRun f st .statement
    -- _var_declaration
    | .varDeclaration c =>
        match pConsume st "IDENTIFIER" "Expect variable name." with
        | .error em => .err em
        | .ok (name, st1) =>
          let (m, st2) := pMatch1 st1 "EQ"
          if m then
            pBindExpr (parseRun f st2 .expression) fun init st3 =>
              match pConsume st3 "SEMICOLON" "Expect ';' after variable declaration." with
              | .error em => .err em
              | .ok (_, st4) => .ok (.stmt (.VarDeclaration name (some init) c)) st4
          else
            match pConsume st1 "SEMICOLON" "Expect ';' after variable declaration." with
            | .error em => .err em
            | .ok (_, st2) => .ok (.stmt (.VarDeclaration name Option.none c)) st2
    -- _function_declaration
    | .functionDeclaration =>
        match pConsume st "IDENTIFIER" "Expect function name." with
        | .error em => .err em
        | .ok (name, st1) =>
          match pConsume st1 "LPAREN" "Expect '(' after function name." with
          | .error em => .err em
          | .ok (_, st2) =>
            let finish : List Token → PSt → PRes := fun params st3 =>
              match pConsume st3 "RPAREN" "Expect ')' after parameters." with
              | .error em => .err em
              | .ok (_, st4) =>
                match pConsume st4 "LBRACE" "Expect '\x7b' before function body." with
                | .error em => .err em
                | .ok (_, st5) =>
                  pBindStmts (parseRun f st5 (.blockLoop [])) fun body st6 =>
                    .ok (.stmt (.FunctionDeclaration name params body)) st6
            if !pCheck st2 "RPAREN" then
              match pConsume st2 "IDENTIFIER" "Expect parameter name." with
              | .error em => .err em
              | .ok (p, st3) =>
                pBindToks (parseRun f st3 (.paramsLoop [p])) fun params st4 =>
                  finish params st4
            else finish [] st2
    | .paramsLoop acc =>
        let (m, st1) := pMatch1 st "COMMA"
        if m then
          match pConsume st1 "IDENTIFIER" "Expect parameter name." with
          | .error em => .err em
          | .ok (p, st2) => parseRun f st2 (.paramsLoop (acc ++ [p]))
        else .ok (.toks acc) st
    -- _statement
    | .statement =>
        let (m, st1) := pMatch1 st "INNIT"
        if m then parseRun f st1 .ifStatement else
        let (m, st1) := pMatch1 st "LOOPZ"
        if m then parseRun f st1 .whileStatement else
        let (m, st1) := pMatch1 st "RETURNZ"
        if m then parseRun f st1 .returnStatement else
        let (m, st1) := pMatch1 st "STOPIT"
        if m then parseRun f st1 .breakStatement else
        let (m, st1) := pMatch1 st "LBRACE"
        if m then
          pBindStmts (parseRun f st1 (.blockLoop [])) fun ss st2 => .ok (.stmt (.Block ss)) st2
        else parseRun f st .expressionStatement
    -- _if_statement
    | .ifStatement =>
        match pConsume st "LPAREN" "Expect '(' after 'innit'." with
        | .error em => .err em
        | .ok (_, st1) =>
          pBindExpr (parseRun f st1 .expression) fun cond st2 =>
            match pConsume st2 "RPAREN" "Expect ')' after if condition." with
            | .error em => .err em
            | .ok (_, st3) =>
              pBindStmt (parseRun f st3 .statement) fun thenB st4 =>
                let (m, st5) := pMatch1 st4 "ELSEWAY"
                if m then
                  pBindStmt (parseRun f st5 .statement) fun elseB st6 =>
                    .ok (.stmt (.IfStatement cond thenB (some elseB))) st6
                else .ok (.stmt (.IfStatement cond thenB Option.none)) st4
    -- _while_statement
    | .whileStatement =>
        match pConsume st "LPAREN" "Expect '(' after 'loopz'." with
        | .error em => .err em
        | .ok (_, st1) =>
          pBindExpr (parseRun f st1 .expression) fun cond st2 =>
            match pConsume st2 "RPAREN" "Expect ')' after loop condition." with
            | .error em => .err em
            | .ok (_, st3) =>
              pBindStmt (parseRun f st3 .statement) fun body st4 =>
                .ok (.stmt (.WhileLoop cond body)) st4
    -- _return_statement
    | .returnStatement =>
        let keyword := pPrevious st
        if !pCheck st "SEMICOLON" then
          pBindExpr (parseRun f st .expression) fun v st1 =>
            match pConsume st1 "SEMICOLON" "Expect ';' after return value." with
            | .error em => .err em
            | .ok (_, st2) => .ok (.stmt (.ReturnStatement keyword (some v))) st2
        else
          match pConsume st "SEMICOLON" "Expect ';' after return value." with
          | .error em => .err em
          | .ok (_, st1) => .ok (.stmt (.ReturnStatement keyword Option.none)) st1
    -- _break_statement
    | .breakStatement =>
        let keyword := pPrevious st
        match pConsume st "SEMICOLON" "Expect ';' after 'stopit'." with
        | .error em => .err em
        | .ok (_, st1) => .ok (.stmt (.BreakStatement keyword)) st1
    -- _block
    | .blockLoop acc =>
        if !pCheck st "RBRACE" && !pIsAtEnd st then
          pBindStmt (parseRun f st .declaration) fun s st1 =>
            parseRun f st1 (.blockLoop (acc ++ [s]))
        else
          match pConsume st "RBRACE" "Expect '\x7d' after block." with
          | .error em => .err em
          | .ok (_, st1) => .ok (.stmts acc) st1
    -- _expression_statement
    | .expressionStatement =>
        pBindExpr (parseRun f st .expression) fun e st1 =>
          match pConsume st1 "SEMICOLON" "Expect ';' after expression." with
          | .error em => .err em
          | .ok (_, st2) => .ok (.stmt (.ExpressionStatement e)) st2
    -- _expression
    | .expression => parseRun f st .assignment
    -- _assignment
    | .assignment =>
        pBindExpr (parseRun f st .logicalOr) fun e st1 =>
          let (m, st2) := pMatch1 st1 "EQ"
          if m then
            let equals := pPrevious st2
            pBindExpr (parseRun f st2 .assignment) fun v st3 =>
              match e with
              | .Variable tok => .ok (.expr (.Assignment tok v)) st3
              | _ =>
                  -- `self._error(equals, "Invalid assignment target.")`:
                  -- `_error` returns the ParseError, and this call site —
                  -- unlike every other one — does not raise it, so the
                  -- message is discarded and `expr` is returned untouched.
                  let _unraised := pErrorMsg equals "Invalid assignment target."
                  .ok (.expr e) st3
          else .ok (.expr e) st1
    -- _logical_or
    | .logicalOr =>
        pBindExpr (parseRun f st .logicalAnd) fun e st1 => parseRun f st1 (.logicalOrLoop e)
    | .logicalOrLoop e =>
        let (m, st1) := pMatch1 st "OR"
        if m then
          let op := pPrevious st1
          pBindExpr (parseRun f st1 .logicalAnd) fun r st2 =>
            parseRun f st2 (.logicalOrLoop (.BinaryOp e op r))
        else .ok (.expr e) st
    -- _logical_and
    | .logicalAnd =>
        pBindExpr (parseRun f st .equality) fun e st1 => parseRun f st1 (.logicalAndLoop e)
    | .logicalAndLoop e =>
        let (m, st1) := pMatch1 st "AND"
        if m then
          let op := pPrevious st1
          pBindExpr (parseRun f st1 .equality) fun r st2 =>
            parseRun f st2 (.logicalAndLoop (.BinaryOp e op r))
        else .ok (.expr e) st
    -- _equality
    | .equality =>
        pBindExpr (parseRun f st .comparison) fun e st1 => parseRun f st1 (.equalityLoop e)
    | .equalityLoop e =>
        let (m, st1) := pMatchAny st ["BANG_EQ", "EQ_EQ"]
        if m then
          let op := pPrevious st1
          pBindExpr (parseRun f st1 .comparison) fun r st2 =>
            parseRun f st2 (.equalityLoop (.BinaryOp e op r))
        else .ok (.expr e) st
    -- _comparison
    | .comparison =>
        pBindExpr (parseRun f st .term) fun e st1 => parseRun f st1 (.comparisonLoop e)
    | .comparisonLoop e =>
        let (m, st1) := pMatchAny st ["GREATER", "GREATER_EQ", "LESS", "LESS_EQ"]
        if m then
          let op := pPrevious st1
          pBindExpr (parseRun f st1 .term) fun r st2 =>
            parseRun f st2 (.comparisonLoop (.BinaryOp e op r))
        else .ok (.expr e) st
    -- _term
    | .term =>
        pBindExpr (parseRun f st .factor) fun e st1 => parseRun f st1 (.termLoop e)
    | .termLoop e =>
        let (m, st1) := pMatchAny st ["MINUS", "PLUS"]
        if m then
          let op := pPrevious st1
          pBindExpr (parseRun f st1 .factor) fun r st2 =>
            parseRun f st2 (.termLoop (.BinaryOp e op r))
        else .ok (.expr e) st
    -- _factor
    | .factor =>
        pBindExpr (parseRun f st .unary) fun e st1 => parseRun f st1 (.factorLoop e)
    | .factorLoop e =>
        let (m, st1) := pMatchAny st ["SLASH", "STAR", "PERCENT"]
        if m then
          let op := pPrevious st1
          pBindExpr (parseRun f st1 .unary) fun r st2 =>
            parseRun f st2 (.factorLoop (.BinaryOp e op r))
        else .ok (.expr e) st
    -- _unary
    | .unary =>
        let (m, st1) := pMatchAny st ["BANG", "MINUS"]
        if m then
          let op := pPrevious st1
          pBindExpr (parseRun f st1 .unary) fun r st2 => .ok (.expr (.UnaryOp op r)) st2
        else parseRun f st .callExpr
    -- _call
    | .callExpr =>
        pBindExpr (parseRun f st .primary) fun e st1 => parseRun f st1 (.callLoop e)
    | .callLoop e =>
        let (m, st1) := pMatch1 st "LPAREN"
        if m then
          pBindExpr (parseRun f st1 (.finishCall e)) fun e2 st2 => parseRun f st2 (.callLoop e2)
        else .ok (.expr e) st
    -- _finish_call
    | .finishCall callee =>
        if !pCheck st "RPAREN" then
          pBindExpr (parseRun f st .expression) fun a st1 =>
            parseRun f st1 (.argsLoop callee [a])
        else
          match pConsume st "RPAREN" "Expect ')' after arguments." with
          | .error em => .err em
          | .ok (paren, st1) => .ok (.expr (.FunctionCall callee paren [])) st1
    | .argsLoop callee acc =>
        let (m, st1) := pMatch1 st "COMMA"
        if m then
          pBindExpr (parseRun f st1 .expression) fun a st2 =>
            parseRun f st2 (.argsLoop callee (acc ++ [a]))
        else
          match pConsume st "RPAREN" "Expect ')' after arguments." with
          | .error em => .err em
          | .ok (paren, st1) => .ok (.expr (.FunctionCall callee paren acc)) st1
    -- _primary
    | .primary =>
        let (m, st1) := pMatch1 st "FALSE"
        if m then .ok (.expr (.Literal (pPrevious st1) (.bool false))) st1 else
        let (m, st1) := pMatch1 st "TRUE"
        if m then .ok (.expr (.Literal (pPrevious st1) (.bool true))) st1 else
        let (m, st1) := pMatch1 st "DIGIT"
        if m then
          .ok (.expr (.Literal (pPrevious st1) (.num (parseFloat (pPrevious st1).value)))) st1
        else
        let (m, st1) := pMatch1 st "WORD"
        if m then .ok (.expr (.Literal (pPrevious st1) (.str (pPrevious st1).value))) st1 else
        let (m, st1) := pMatch1 st "IDENTIFIER"
        if m then .ok (.expr (.Variable (pPrevious st1))) st1 else
        let (m, st1) := pMatch1 st "LPAREN"
        if m then
          pBindExpr (parseRun f st1 .expression) fun e st2 =>
            match pConsume st2 "RPAREN" "Expect ')' after expression." with
            | .error em => .err em
            | .ok (_, st3) => .ok (.expr (.Grouping e)) st3
        else
        let (m, st1) := pMatch1 st "LBRACKET"
        if m then parseRun f st1 .listLiteralIn
        else .err (pErrorMsg (pPeek st) "Expect expression.")
    -- _list_literal
    | .listLiteralIn =>
        if !pCheck st "RBRACKET" then
          pBindExpr (parseRun f st .expression) fun a st1 => parseRun f st1 (.listLoop [a])
        else
          match pConsume st "RBRACKET" "Expect ']' after list elements." with
          | .error em => .err em
          | .ok (_, st1) => .ok (.expr (.ListLiteral [])) st1
    | .listLoop acc =>
        let (m, st1) := pMatch1 st "COMMA"
        if m then
          pBindExpr (parseRun f st1 .expression) fun a st2 =>
            parseRun f st2 (.listLoop (acc ++ [a]))
        else
          match pConsume st "RBRACKET" "Expect ']' after list elements." with
          | .error em => .err em
          | .ok (_, st1) => .ok (.expr (.ListLiteral acc)) st1

/-- The outcome of `Parser.parse`: a `Program`, or a raised `ParseError`. -/
inductive ParseOutcome where
  | ok (p : Program)
  | err (msg : String)
  | timeout
deriving Repr

/-- Ample fuel: the parser's call paths are bounded by the grammar's descent
depth plus one step per consumed token. -/
def parserFuel (tokens : List Token) : Nat := 20 * tokens.length + 100

/-- `Parser(tokens).parse()`. -/
def parseProgram (tokens : List Token) : ParseOutcome :=
  match parseRun (parserFuel tokens) ⟨tokens, 0⟩ (.programLoop []) with
  | .ok (.stmts ss) _ => .ok ⟨ss⟩
  | .ok _ _ => .err "internal shape error"
  | .err m => .err m
  | .timeout => .timeout

/-- text → Lexer → Parser. -/
def parseSource (src : String) : ParseOutcome := parseProgram (tokenize src)

/-- text → Lexer → Parser → Interpreter (a fresh interpreter, as the tests
drive it): the final outcome and everything printed to stdout by `say` and
by the `interpret` error report. `Option.none` means the program did not
parse, so `interpret` was never reached. -/
def interpretSource (fuel : Nat) (src : String) : Option (Res Unit × List String) :=
  match parseSource src with
  | .ok p =>
      let r := interpret fuel p initState
      some (r.1, r.2.output)
  | _ => Option.none

/-! ## Transpiler (src/transpiler.py) -/

mutual
/-- `Transpiler.visit_*` for expression nodes. -/
def tExpr : Expr → String
  | .Assignment name value => name.value ++ " = " ++ tExpr value
  -- visit_BinaryOp: AND/OR are rewritten by token type; every other
  -- operator renders node.operator.value, the token's text
  | .BinaryOp l op r =>
      let opStr := if op.type == "AND" then "&&" else if op.type == "OR" then "||" else op.value
      "(" ++ tExpr l ++ " " ++ opStr ++ " " ++ tExpr r ++ ")"
  | .UnaryOp op right => op.value ++ tExpr right
  -- visit_FunctionCall: the rendered callee "say" becomes console.log
  | .FunctionCall callee _ args =>
      let calleeName := tExpr callee
      let calleeName := if calleeName == "say" then "console.log" else calleeName
      calleeName ++ "(" ++ String.intercalate ", " (tExprs args) ++ ")"
  | .Variable tok => tok.value
  | .Literal _ (.str s) => "\"" ++ s ++ "\""
  | .Literal _ (.bool b) => if b then "true" else "false"
  | .Literal _ (.num q) => pyStrNum q
  | .Grouping e => "(" ++ tExpr e ++ ")"
  | .ListLiteral elems => "[" ++ String.intercalate ", " (tExprs elems) ++ "]"
def tExprs : List Expr → List String
  | [] => []
  | e :: es => tExpr e :: tExprs es
end

mutual
/-- `Transpiler.visit_*` for statement nodes. -/
def tStmt : Stmt → String
  | .VarDeclaration name init constant =>
      let keyword := if constant then "const" else "let"
      (match init with
       | some e => keyword ++ " " ++ name.value ++ " = " ++ tExpr e ++ ";"
       | Option.none => keyword ++ " " ++ name.value ++ ";")
  -- visit_FunctionDeclaration renders its body Block via visit_Block, whose
  -- rendering is spelled out here (the body field carries the Block's list)
  | .FunctionDeclaration name params body =>
      "function " ++ name.value ++ "("
        ++ String.intercalate ", " (params.map Token.value) ++ ") "
        ++ ("\x7b\n  " ++ String.intercalate "\n  " (tStmts body) ++ "\n\x7d")
  | .IfStatement cond thenB elseB =>
      (match elseB with
       | some e => "if (" ++ tExpr cond ++ ") " ++ tStmt thenB ++ " else " ++ tStmt e
       | Option.none => "if (" ++ tExpr cond ++ ") " ++ tStmt thenB)
  | .WhileLoop cond body => "while (" ++ tExpr cond ++ ") " ++ tStmt body
  | .ReturnStatement _ (some v) => "return " ++ tExpr v ++ ";"
  | .ReturnStatement _ Option.none => "return;"
  | .BreakStatement _ => "break;"
  -- visit_Block: newline-separated, two-space indented, brace-delimited
  | .Block ss => "\x7b\n  " ++ String.intercalate "\n  " (tStmts ss) ++ "\n\x7d"
  | .ExpressionStatement e => tExpr e ++ ";"
def tStmts : List Stmt → List String
  | [] => []
  | s :: ss => tStmt s :: tStmts ss
end

/-- `Transpiler.transpile`: `visit_Program` joins statements by newlines. -/
def transpile (p : Program) : String := String.intercalate "\n" (tStmts p.statements)

/-- text → Lexer → Parser → Transpiler. -/
def transpileSource (src : String) : Option String :=
  match parseSource src with
  | .ok p => some (transpile p)
  | _ => Option.none

/-! ## Heap invariants

Evaluation only ever appends frames to the heap and rewrites the `values`
dict of existing frames; it never changes an existing frame's `enclosing`
link. This is the structural fact behind lexical scoping: the environment a
closure captured still hangs off the same chain after arbitrary execution. -/

/-- `h'` extends `h`: at least as many frames, and every frame of `h` keeps
its enclosing link in `h'`. -/
def heapExtends (h h' : List Frame) : Prop :=
  h.length ≤ h'.length ∧
    ∀ i, i < h.length → (getFrame h' i).enclosing = (getFrame h i).enclosing

theorem heapExtends_refl (h : List Frame) : heapExtends h h :=
  ⟨le_refl _, fun _ _ => rfl⟩

theorem heapExtends_trans {a b c : List Frame}
    (hab : heapExtends a b) (hbc : heapExtends b c) : heapExtends a c :=
  ⟨le_trans hab.1 hbc.1, fun i hi => (hbc.2 i (lt_of_lt_of_le hi hab.1)).trans (hab.2 i hi)⟩

theorem heapExtends_setFrameValues (h : List Frame) (i : Nat) (vals : List (String × Value)) :
    heapExtends h (setFrameValues h i vals) := by
  refine ⟨by simp [setFrameValues], fun j hj => ?_⟩
  by_cases hij : i = j
  · subst hij
    simp [getFrame, setFrameValues, List.getD_eq_getElem?_getD, List.getElem?_set_self hj]
  · simp [getFrame, setFrameValues, List.getD_eq_getElem?_getD, List.getElem?_set_ne hij]

theorem heapExtends_append (h l : List Frame) : heapExtends h (h ++ l) := by
  refine ⟨by simp, fun j hj => ?_⟩
  show ((h ++ l).getD j default).enclosing = (h.getD j default).enclosing
  rw [List.getD_append h l default j hj]

theorem envDefine_heapExtends (st : St) (name : String) (v : Value) :
    heapExtends st.heap (envDefine st name v).heap :=
  heapExtends_setFrameValues _ _ _

theorem envAssign_heapExtends :
    ∀ (fuel : Nat) (h : List Frame) (i : Nat) (name : String) (v : Value) (h' : List Frame),
      envAssign fuel h i name v = .ok h' → heapExtends h h' := by
  intro fuel
  induction fuel with
  | zero => intro h i name v h' hok; exact absurd hok (by simp [envAssign])
  | succ f ih =>
    intro h i name v h' hok
    unfold envAssign at hok
    by_cases hmem : (alistGet (getFrame h i).values name).isSome
    · simp only [hmem, if_pos] at hok
      cases hok
      exact heapExtends_setFrameValues _ _ _
    · simp only [hmem, if_neg, Bool.false_eq_true] at hok
      cases henc : (getFrame h i).enclosing with
      | some j => rw [henc] at hok; exact ih h j name v h' hok
      | none => rw [henc] at hok; exact absurd hok (by simp)

theorem bindVal_heapExtends {h0 : List Frame} {r : Res EvalOut × St}
    {k : Value → St → Res EvalOut × St}
    (h1 : heapExtends h0 r.2.heap)
    (h2 : ∀ v, heapExtends r.2.heap ((k v r.2)).2.heap) :
    heapExtends h0 (bindVal r k).2.heap := by
  obtain ⟨res, st⟩ := r
  cases res with
  | ok o =>
    cases o with
    | val v => exact heapExtends_trans h1 (h2 v)
    | vals _ => exact h1
    | unit => exact h1
  | exc e => exact h1
  | timeout => exact h1

theorem bindVals_heapExtends {h0 : List Frame} {r : Res EvalOut × St}
    {k : List Value → St → Res EvalOut × St}
    (h1 : heapExtends h0 r.2.heap)
    (h2 : ∀ vs, heapExtends r.2.heap ((k vs r.2)).2.heap) :
    heapExtends h0 (bindVals r k).2.heap := by
  obtain ⟨res, st⟩ := r
  cases res with
  | ok o =>
    cases o with
    | val _ => exact h1
    | vals vs => exact heapExtends_trans h1 (h2 vs)
    | unit => exact h1
  | exc e => exact h1
  | timeout => exact h1

theorem bindUnit_heapExtends {h0 : List Frame} {r : Res EvalOut × St}
    {k : St → Res EvalOut × St}
    (h1 : heapExtends h0 r.2.heap)
    (h2 : heapExtends r.2.heap ((k r.2)).2.heap) :
    heapExtends h0 (bindUnit r k).2.heap := by
  obtain ⟨res, st⟩ := r
  cases res with
  | ok o => exact heapExtends_trans h1 h2
  | exc e => exact h1
  | timeout => exact h1

/-- The central invariant: evaluation never rewrites an existing frame's
enclosing link, and never drops frames. -/
theorem run_heapExtends :
    ∀ (f : Nat) (st : St) (inp : EvalIn), heapExtends st.heap (run f st inp).2.heap := by
  intro f
  induction f with
  | zero => intro st inp; exact heapExtends_refl _
  | succ f ih =>
    intro st inp
    cases inp with
    | expr e =>
      cases e with
      | Literal tok v => exact heapExtends_refl _
      | Variable tok =>
        simp only [run]
        cases envGet (st.heap.length + 1) st.heap st.envIdx tok.value <;>
          exact heapExtends_refl _
      | Grouping e => exact ih st (.expr e)
      | UnaryOp opTok right =>
        simp only [run]
        refine bindVal_heapExtends (ih st (.expr right)) fun v => ?_
        exact heapExtends_refl _
      | BinaryOp l opTok r =>
        simp only [run]
        refine bindVal_heapExtends (ih st (.expr l)) fun lv => ?_
        refine bindVal_heapExtends (ih _ (.expr r)) fun rv => ?_
        exact heapExtends_refl _
      | Assignment name value =>
        simp only [run]
        refine bindVal_heapExtends (ih st (.expr value)) fun v => ?_
        cases ha : envAssign ((run f st (.expr value)).2.heap.length + 1)
            (run f st (.expr value)).2.heap (run f st (.expr value)).2.envIdx name.value v with
        | ok h2 => exact envAssign_heapExtends _ _ _ _ _ _ ha
        | error m => exact heapExtends_refl _
      | FunctionCall callee paren args =>
        simp only [run]
        refine bindVal_heapExtends (ih st (.expr callee)) fun cv => ?_
        refine bindVals_heapExtends (ih _ (.exprList args)) fun argv => ?_
        split
        · exact heapExtends_refl _
        · split
          · exact heapExtends_refl _
          · exact ih _ (.callVal cv argv)
      | ListLiteral elems =>
        simp only [run]
        refine bindVals_heapExtends (ih st (.exprList elems)) fun vs => ?_
        exact heapExtends_refl _
    | exprList es =>
      cases es with
      | nil => exact heapExtends_refl _
      | cons e es =>
        simp only [run]
        refine bindVal_heapExtends (ih st (.expr e)) fun v => ?_
        refine bindVals_heapExtends (ih _ (.exprList es)) fun vs => ?_
        exact heapExtends_refl _
    | stmt s =>
      cases s with
      | ExpressionStatement e =>
        simp only [run]
        refine bindVal_heapExtends (ih st (.expr e)) fun v => ?_
        exact heapExtends_refl _
      | VarDeclaration name init c =>
        simp only [run]
        cases init with
        | none => exact envDefine_heapExtends _ _ _
        | some e =>
          refine bindVal_heapExtends (ih st (.expr e)) fun v => ?_
          exact envDefine_heapExtends _ _ _
      | Block ss =>
        simp only [run]
        have hrun := ih (pushFrame st ⟨[], some st.envIdx⟩) (.stmtList ss)
        rcases hres : run f (pushFrame st ⟨[], some st.envIdx⟩) (.stmtList ss) with ⟨res, st2⟩
        rw [hres] at hrun
        have hall : heapExtends st.heap st2.heap :=
          heapExtends_trans (heapExtends_append st.heap [⟨[], some st.envIdx⟩]) hrun
        cases res with
        | ok o => exact hall
        | exc e => exact hall
        | timeout => exact hall
      | FunctionDeclaration name params body =>
        simp only [run]
        exact envDefine_heapExtends _ _ _
      | ReturnStatement kw value =>
        simp only [run]
        cases value with
        | none => exact heapExtends_refl _
        | some e =>
          refine bindVal_heapExtends (ih st (.expr e)) fun v => ?_
          exact heapExtends_refl _
      | BreakStatement kw => exact heapExtends_refl _
      | IfStatement cond thenB elseB =>
        simp only [run]
        refine bindVal_heapExtends (ih st (.expr cond)) fun c => ?_
        split
        · exact ih _ (.stmt thenB)
        · cases elseB with
          | some e => exact ih _ (.stmt e)
          | none => exact heapExtends_refl _
      | WhileLoop cond body =>
        simp only [run]
        refine bindVal_heapExtends (ih st (.expr cond)) fun c => ?_
        split
        · refine bindUnit_heapExtends (ih _ (.stmt body)) ?_
          exact ih _ (.stmt (.WhileLoop cond body))
        · exact heapExtends_refl _
    | stmtList ss =>
      cases ss with
      | nil => exact heapExtends_refl _
      | cons s ss =>
        simp only [run]
        refine bindUnit_heapExtends (ih st (.stmt s)) ?_
        exact ih _ (.stmtList ss)
    | callVal cv args =>
      cases cv with
      | fn name params body closure =>
        simp only [run]
        have hrun := ih (pushFrame st ⟨bindParams params args, some closure⟩) (.stmtList body)
        rcases hres : run f (pushFrame st ⟨bindParams params args, some closure⟩)
            (.stmtList body) with ⟨res, st2⟩
        rw [hres] at hrun
        have hall : heapExtends st.heap st2.heap :=
          heapExtends_trans (heapExtends_append st.heap [⟨bindParams params args, some closure⟩])
            hrun
        cases res with
        | ok o => exact hall
        | exc e => cases e <;> exact hall
        | timeout => exact hall
      | say => exact heapExtends_refl _
      | none => exact heapExtends_refl _
      | num q => exact heapExtends_refl _
      | str s => exact heapExtends_refl _
      | bool b => exact heapExtends_refl _
      | list l => exact heapExtends_refl _

/-! ## Supporting lemmas for the claims -/

theorem evalExpr_ok {f : Nat} {st st1 : St} {e : Expr} {v : Value}
    (h : evalExpr f st e = (.ok v, st1)) : run f st (.expr e) = (.ok (.val v), st1) := by
  unfold evalExpr at h
  rcases hr : run f st (.expr e) with ⟨res, st2⟩
  rw [hr] at h
  cases res with
  | ok o =>
    cases o with
    | val w => cases h; rfl
    | vals vs => cases h
    | unit => cases h
  | exc e => cases h
  | timeout => cases h

theorem callFn_snd (f : Nat) (st : St) (v : Value) (args : List Value) :
    (callFn f st v args).2 = (run f st (.callVal v args)).2 := by
  unfold callFn
  rcases run f st (.callVal v args) with ⟨res, st1⟩
  cases res with
  | ok o => cases o <;> rfl
  | exc e => rfl
  | timeout => rfl

theorem getFrame_append_self (h : List Frame) (fr : Frame) :
    getFrame (h ++ [fr]) h.length = fr := by
  induction h with
  | nil => rfl
  | cons x xs ih => exact ih

theorem envAssign_error_msg :
    ∀ (fuel : Nat) (h : List Frame) (i : Nat) (name : String) (v : Value) (msg : String),
      envAssign fuel h i name v = .error msg → msg = "Undefined variable '" ++ name ++ "'." := by
  intro fuel
  induction fuel with
  | zero =>
    intro h i name v msg hm
    unfold envAssign at hm
    cases hm
    rfl
  | succ f ih =>
    intro h i name v msg hm
    unfold envAssign at hm
    by_cases hmem : (alistGet (getFrame h i).values name).isSome
    · simp [hmem] at hm
    · simp only [hmem, Bool.false_eq_true, if_neg, if_false] at hm
      cases henc : (getFrame h i).enclosing with
      | some j =>
        rw [henc] at hm
        exact ih h j name v msg hm
      | none =>
        rw [henc] at hm
        cases hm
        rfl

theorem envAssign_error_iff :
    ∀ (fuel : Nat) (h : List Frame) (i : Nat) (name : String) (v : Value),
      (∃ msg, envAssign fuel h i name v = .error msg) ↔ resolveIdx fuel h i name = Option.none := by
  intro fuel
  induction fuel with
  | zero => intro h i name v; simp [envAssign, resolveIdx]
  | succ f ih =>
    intro h i name v
    unfold envAssign resolveIdx
    by_cases hmem : (alistGet (getFrame h i).values name).isSome
    · simp [hmem]
    · simp only [hmem, Bool.false_eq_true, if_neg, if_false]
      cases henc : (getFrame h i).enclosing with
      | some j => simpa using ih h j name v
      | none => simp

/-! ## The claims -/

set_option maxRecDepth 40000 in
/-- C1: the spec says a non-Variable assignment target raises a ParseError
"Invalid assignment target."; the code instead builds that error in
`Parser._assignment` and never raises it (`_error` returns the exception,
and this call site, unlike every other, lacks `raise`), so `"1 = 2;"`
parses with no error at all: the right-hand side is dropped and the result
is `Program([ExpressionStatement(Literal(1.0))])`. -/
theorem claim_C1_invalid_assignment_not_raised :
    parseSource "1 = 2;" =
      .ok ⟨[.ExpressionStatement (.Literal ⟨"DIGIT", "1", 1, 1⟩ (.num ⟨1, 1⟩))]⟩ := rfl

set_option maxRecDepth 40000 in
/-- C2 (counterexample): executing a BreakStatement is not a no-op.
`"say(1); stopit; say(2);"` prints only `1.0` and aborts with the uncaught
host exception, while the same program without `stopit` prints both lines;
the remaining statements do not continue as if the break were absent. -/
theorem claim_C2_counterexample :
    interpretSource 100 "say(1); stopit; say(2);" =
        some (.exc (.hostError "No visit_BreakStatement method defined"), ["1.0"])
      ∧ interpretSource 100 "say(1); say(2);" = some (.ok (), ["1.0", "2.0"])
      ∧ (["1.0"] : List String) ≠ ["1.0", "2.0"] := by
  refine ⟨rfl, rfl, ?_⟩
  decide

set_option maxRecDepth 40000 in
/-- C2 (amended): the Interpreter has no `visit_BreakStatement` method, so
executing a BreakStatement dispatches to `NodeVisitor.generic_visit`, which
raises the plain Exception "No visit_BreakStatement method defined"; since
`interpret` catches only RuntimeError, the exception skips the remaining
statements and escapes `interpret` to the host. -/
theorem claim_C2_break_raises_uncaught :
    (∀ (f : Nat) (tok : Token) (st : St),
        execStmt (f + 1) st (.BreakStatement tok) =
          (.exc (.hostError "No visit_BreakStatement method defined"), st))
      ∧ interpretSource 100 "say(1); stopit; say(2);" =
          some (.exc (.hostError "No visit_BreakStatement method defined"), ["1.0"]) := by
  exact ⟨fun f tok st => rfl, rfl⟩

set_option maxRecDepth 40000 in
/-- C3: the transpiler renders non-logical operators with
`node.operator.value`, but the lexer's two-character branches call
`_add_token` before consuming the second character, so an `EQ_EQ` token's
value is `"="` (and `BANG_EQ` is `"!"`, `LESS_EQ` is `"<"`, `GREATER_EQ` is
`">"`). Transpiling `a == b` therefore emits `=`, not `==`; only `&&` and
`||`, rewritten by token type, survive intact. -/
theorem claim_C3_two_char_operators_lost :
    transpileSource "a == b;" = some "(a = b);"
      ∧ transpileSource "a != b;" = some "(a ! b);"
      ∧ transpileSource "a <= b;" = some "(a < b);"
      ∧ transpileSource "a >= b;" = some "(a > b);"
      ∧ transpileSource "a && b;" = some "(a && b);"
      ∧ transpileSource "a || b;" = some "(a || b);" :=
  ⟨rfl, rfl, rfl, rfl, rfl, rfl⟩

set_option maxRecDepth 40000 in
/-- C4 (counterexample): `say` is Python `print`, so booleans render
capitalized and list elements render via `repr` (strings single-quoted):
`say([1, "two", true])` outputs `[1.0, 'two', True]`, not the claimed
`[1.0, two, true]`, and `say(true)` outputs `True`, not `true`. -/
theorem claim_C4_counterexample :
    interpretSource 100 "say([1, \"two\", true]);" =
        some (.ok (), ["[1.0, 'two', True]"])
      ∧ pyStr (.bool true) = "True"
      ∧ ("[1.0, 'two', True]" : String) ≠ "[1.0, two, true]"
      ∧ ("True" : String) ≠ "true" := by
  refine ⟨rfl, rfl, ?_, ?_⟩ <;> decide

set_option maxRecDepth 40000 in
/-- C4 (amended): `say` prints the Python rendering of the value: a string
renders unquoted at top level, booleans render as capitalized `True`/`False`,
and a list renders bracketed and comma-separated with elements rendered by
`repr` — numbers with an explicit fractional part, strings single-quoted,
booleans capitalized — so `say([1, "two", true])` outputs
`[1.0, 'two', True]`. -/
theorem claim_C4_python_rendering :
    (∀ s : String, pyStr (.str s) = s)
      ∧ pyStr (.bool true) = "True"
      ∧ pyStr (.bool false) = "False"
      ∧ pyStr (.num ⟨1, 1⟩) = "1.0"
      ∧ pyStr (.list [.num ⟨1, 1⟩, .str "two", .bool true]) = "[1.0, 'two', True]"
      ∧ interpretSource 100 "say([1, \"two\", true]);" =
          some (.ok (), ["[1.0, 'two', True]"]) :=
  ⟨fun _ => rfl, rfl, rfl, rfl, rfl, rfl⟩

set_option maxRecDepth 40000 in
/-- C5: evaluating `/` on two numbers whose right operand is exactly zero
raises the RuntimeError "Division by zero."; at the `interpret` entry point
that error is caught and reported, the remaining statements of the program
are skipped, and nothing propagates out of `interpret` (the outcome is
`ok`, so the host continues). -/
theorem claim_C5_division_by_zero :
    (∀ (f : Nat) (st st1 st2 : St) (l r : Expr) (tok : Token) (a b : PyNum),
        tok.type = "SLASH" →
        evalExpr f st l = (.ok (.num a), st1) →
        evalExpr f st1 r = (.ok (.num b), st2) →
        b.num = 0 →
        evalExpr (f + 1) st (.BinaryOp l tok r) =
          (.exc (.runtimeError "Division by zero."), st2))
      ∧ interpretSource 100 "say(1); say(1 / 0); say(2);" =
          some (.ok (), ["1.0", "Division by zero."]) := by
  constructor
  · intro f st st1 st2 l r tok a b htok hl hr hb
    have hl' := evalExpr_ok hl
    have hr' := evalExpr_ok hr
    obtain ⟨bn, bd⟩ := b
    obtain rfl : bn = 0 := hb
    have hbin : evalBinary tok (.num a) (.num ⟨0, bd⟩) =
        .exc (.runtimeError "Division by zero.") := by
      unfold evalBinary
      rw [htok]
      rfl
    unfold evalExpr
    simp only [run, hl', bindVal, hr', hbin]
  · rfl

theorem claim_C5_witness :
    (⟨"SLASH", "/", 1, 1⟩ : Token).type = "SLASH"
      ∧ evalExpr 2 initState
          (.BinaryOp (.Literal dummyToken (.num ⟨1, 1⟩)) ⟨"SLASH", "/", 1, 1⟩
            (.Literal dummyToken (.num ⟨0, 1⟩))) =
          (.exc (.runtimeError "Division by zero."), initState) :=
  ⟨rfl, claim_C5_division_by_zero.1 1 initState initState initState
    (.Literal dummyToken (.num ⟨1, 1⟩)) (.Literal dummyToken (.num ⟨0, 1⟩))
    ⟨"SLASH", "/", 1, 1⟩ ⟨1, 1⟩ ⟨0, 1⟩ rfl rfl rfl rfl⟩

/-- The counter-factory scenario exercising closure environments. -/
def counterSrc : String :=
  "fam makeCounter() \x7b gimme i = 0; fam count() \x7b i = i + 1; returnz i; \x7d returnz count; \x7d gimme c1 = makeCounter(); gimme c2 = makeCounter(); say(c1()); say(c1()); say(c2());"

set_option maxRecDepth 40000 in
/-- C6: `RoadmanFunction.call` allocates its fresh environment with the
closure environment — the one captured when the FunctionDeclaration
executed — as its `enclosing` link, for every caller state (in particular,
independently of the caller's current environment index), and that link is
still the closure after the call completes. Consequently, in the
counter-factory program two independent `makeCounter()` calls yield
independent counters and two sequential calls on one counter yield
increasing values: the outputs are `1.0`, `2.0` from the first counter and
`1.0` again from the second. -/
theorem claim_C6_closure_env :
    (∀ (f : Nat) (st : St) (name : Token) (params : List Token) (body : List Stmt)
        (closure : Nat) (args : List Value),
        st.heap.length < (callFn (f + 1) st (.fn name params body closure) args).2.heap.length
          ∧ (getFrame (callFn (f + 1) st (.fn name params body closure) args).2.heap
              st.heap.length).enclosing = some closure)
      ∧ interpretSource 300 counterSrc = some (.ok (), ["1.0", "2.0", "1.0"]) := by
  constructor
  · intro f st name params body closure args
    rw [callFn_snd]
    simp only [run]
    rcases hres : run f (pushFrame st ⟨bindParams params args, some closure⟩)
        (.stmtList body) with ⟨res, st2⟩
    have hrun := run_heapExtends f (pushFrame st ⟨bindParams params args, some closure⟩)
      (.stmtList body)
    rw [hres] at hrun
    have hlen : st.heap.length + 1 ≤ st2.heap.length := by
      have := hrun.1
      simpa [pushFrame] using this
    have henc : (getFrame st2.heap st.heap.length).enclosing = some closure := by
      have hmem : st.heap.length < (pushFrame st ⟨bindParams params args, some closure⟩).heap.length := by
        simp [pushFrame]
      have := hrun.2 st.heap.length hmem
      rw [show (pushFrame st ⟨bindParams params args, some closure⟩).heap
            = st.heap ++ [⟨bindParams params args, some closure⟩] from rfl,
          getFrame_append_self] at this
      exact this
    have hlt : st.heap.length < st2.heap.length :=
      Nat.lt_of_lt_of_le (Nat.lt_succ_self _) hlen
    cases res with
    | ok o => exact ⟨hlt, henc⟩
    | exc e => cases e <;> exact ⟨hlt, henc⟩
    | timeout => exact ⟨hlt, henc⟩
  · rfl

set_option maxRecDepth 40000 in
/-- C7 (counterexample): a lone `&` or `|` does not produce a token of its
own kind — it produces no token at all; the lexer prints an
unexpected-character diagnostic and moves on. -/
theorem claim_C7_counterexample :
    (tokenize "&").map Token.type = ["EOF"]
      ∧ (tokenize "|").map Token.type = ["EOF"]
      ∧ lexDiags "&" = ["[1:2] Unexpected character: &"]
      ∧ lexDiags "|" = ["[1:2] Unexpected character: |"] :=
  ⟨rfl, rfl, rfl, rfl⟩

set_option maxRecDepth 40000 in
/-- C7 (amended): the lexer greedily emits the two-character token kinds
`EQ_EQ`, `BANG_EQ`, `LESS_EQ`, `GREATER_EQ`, `AND`, `OR` when the two
characters are adjacent, and a lone `=`, `!`, `<` or `>` produces its own
single-character kind; but a lone `&` or `|` has no kind of its own — it
emits no token and only an unexpected-character diagnostic. -/
theorem claim_C7_lexer_operators :
    (tokenize "==").map Token.type = ["EQ_EQ", "EOF"]
      ∧ (tokenize "!=").map Token.type = ["BANG_EQ", "EOF"]
      ∧ (tokenize "<=").map Token.type = ["LESS_EQ", "EOF"]
      ∧ (tokenize ">=").map Token.type = ["GREATER_EQ", "EOF"]
      ∧ (tokenize "&&").map Token.type = ["AND", "EOF"]
      ∧ (tokenize "||").map Token.type = ["OR", "EOF"]
      ∧ (tokenize "a<=b").map Token.type = ["IDENTIFIER", "LESS_EQ", "IDENTIFIER", "EOF"]
      ∧ (tokenize "=").map Token.type = ["EQ", "EOF"]
      ∧ (tokenize "!").map Token.type = ["BANG", "EOF"]
      ∧ (tokenize "<").map Token.type = ["LESS", "EOF"]
      ∧ (tokenize ">").map Token.type = ["GREATER", "EOF"]
      ∧ (tokenize "&").map Token.type = ["EOF"]
      ∧ (tokenize "|").map Token.type = ["EOF"]
      ∧ lexDiags "&" = ["[1:2] Unexpected character: &"]
      ∧ lexDiags "|" = ["[1:2] Unexpected character: |"] :=
  ⟨rfl, rfl, rfl, rfl, rfl, rfl, rfl, rfl, rfl, rfl, rfl, rfl, rfl, rfl, rfl⟩

set_option maxRecDepth 40000 in
/-- C8: the is-constant flag recorded by `conste` has no effect at
evaluation time — executing a VarDeclaration is the same function of the
state for any two values of the flag; `Environment.assign` returns an error
exactly for names that resolve nowhere along the enclosing chain, and that
error is always the "Undefined variable" RuntimeError; so assigning to a
`conste`-declared name succeeds exactly as for a `gimme`-declared one. -/
theorem claim_C8_conste_assignable :
    (∀ (f : Nat) (st : St) (name : Token) (init : Option Expr) (c1 c2 : Bool),
        execStmt f st (.VarDeclaration name init c1) = execStmt f st (.VarDeclaration name init c2))
      ∧ (∀ (fuel : Nat) (h : List Frame) (i : Nat) (name : String) (v : Value),
          (∃ msg, envAssign fuel h i name v = .error msg) ↔
            resolveIdx fuel h i name = Option.none)
      ∧ (∀ (fuel : Nat) (h : List Frame) (i : Nat) (name : String) (v : Value) (msg : String),
          envAssign fuel h i name v = .error msg →
            msg = "Undefined variable '" ++ name ++ "'.")
      ∧ interpretSource 100 "conste x = 1; x = 2; say(x);" = some (.ok (), ["2.0"]) := by
  refine ⟨?_, envAssign_error_iff, envAssign_error_msg, rfl⟩
  intro f st name init c1 c2
  cases f with
  | zero => rfl
  | succ f => cases init <;> rfl

theorem claim_C8_witness :
    envAssign 1 [⟨[], Option.none⟩] 0 "x" (.num ⟨1, 1⟩) = .error "Undefined variable 'x'."
      ∧ resolveIdx 1 [⟨[], Option.none⟩] 0 "x" = Option.none :=
  ⟨rfl, (claim_C8_conste_assignable.2.1 1 [⟨[], Option.none⟩] 0 "x" (.num ⟨1, 1⟩)).mp ⟨_, rfl⟩⟩

set_option maxRecDepth 40000 in
/-- C9: a top-level ReturnStatement raises the Return control-flow
exception: executing it yields the `ret` outcome, `interpret` catches only
RuntimeError and re-raises everything else, so the Return escapes
`interpret` to the host caller instead of being reported; concretely
`"returnz 5;"` leaves `interpret` with the uncaught Return carrying 5.0
and prints nothing. -/
theorem claim_C9_top_level_return :
    (∀ (f : Nat) (tok : Token) (st : St),
        execStmt (f + 1) st (.ReturnStatement tok Option.none) = (.exc (.ret .none), st))
      ∧ (∀ (f : Nat) (p : Program) (st st1 : St) (v : Value),
          run f st (.stmtList p.statements) = (.exc (.ret v), st1) →
            interpret f p st = (.exc (.ret v), st1))
      ∧ interpretSource 100 "returnz 5;" = some (.exc (.ret (.num ⟨5, 1⟩)), []) := by
  refine ⟨fun f tok st => rfl, ?_, rfl⟩
  intro f p st st1 v h
  unfold interpret
  rw [h]

theorem claim_C9_witness :
    interpret 2 ⟨[.ReturnStatement dummyToken Option.none]⟩ initState =
      (.exc (.ret .none), initState) :=
  claim_C9_top_level_return.2.1 2 ⟨[.ReturnStatement dummyToken Option.none]⟩
    initState initState .none rfl

set_option maxRecDepth 40000 in
/-- C10: the comparison operators perform no operand-type check; comparing
a number with a string raises the host-level TypeError (not a RuntimeError
of the interpreter's error model), and since `interpret` catches only
RuntimeError, it escapes the `interpret` entry point uncaught — concretely
`say(1 < "a");` leaves `interpret` with the uncaught TypeError and prints
nothing. -/
theorem claim_C10_comparison_type_error :
    (∀ (f : Nat) (st st1 st2 : St) (l r : Expr) (tok : Token) (q : PyNum) (s : String),
        tok.type = "LESS" →
        evalExpr f st l = (.ok (.num q), st1) →
        evalExpr f st1 r = (.ok (.str s), st2) →
        evalExpr (f + 1) st (.BinaryOp l tok r) =
          (.exc (.hostError "'<' not supported between instances of 'float' and 'str'"), st2))
      ∧ interpretSource 100 "say(1 < \"a\");" =
          some (.exc (.hostError "'<' not supported between instances of 'float' and 'str'"), []) := by
  constructor
  · intro f st st1 st2 l r tok q s htok hl hr
    have hl' := evalExpr_ok hl
    have hr' := evalExpr_ok hr
    have hbin : evalBinary tok (.num q) (.str s) =
        .exc (.hostError "'<' not supported between instances of 'float' and 'str'") := by
      unfold evalBinary
      rw [htok]
      rfl
    unfold evalExpr
    simp only [run, hl', bindVal, hr', hbin]
  · rfl

theorem claim_C10_witness :
    (⟨"LESS", "<", 1, 1⟩ : Token).type = "LESS"
      ∧ evalExpr 2 initState
          (.BinaryOp (.Literal dummyToken (.num ⟨1, 1⟩)) ⟨"LESS", "<", 1, 1⟩
            (.Literal dummyToken (.str "a"))) =
          (.exc (.hostError "'<' not supported between instances of 'float' and 'str'"),
            initState) :=
  ⟨rfl, claim_C10_comparison_type_error.1 1 initState initState initState
    (.Literal dummyToken (.num ⟨1, 1⟩)) (.Literal dummyToken (.str "a"))
    ⟨"LESS", "<", 1, 1⟩ ⟨1, 1⟩ "a" rfl rfl rfl⟩

end Roadman
